import Mathlib

/-!
Verification of the PayVoice Policy & Guardrail Decision Engine
(`src/services/policy.js`) against its natural-language specification.

Shallow embedding conventions:
* money values are rationals (`ℚ`); JS `number` arithmetic on the magnitudes
  involved is modelled exactly by rational arithmetic;
* calendar dates are integers counting days since 1970-01-01 (a Thursday,
  so JavaScript's `Date.getDay()` of day `d` is `(d + 4) % 7`);
* each Supabase call is modelled by an explicit outcome parameter:
  `ReadResult α` is `.ok a` (the query returned `a`; a `.single()` query
  that matched no row returns `.ok none`, which the source distinguishes
  from a storage error via the `PGRST116` code) or `.err` (storage error);
* fallible operations return `Except` / an error component, and the
  source's `try/catch` blocks are reproduced in the control flow.
-/

namespace PayVoice

/-- Outcome of one storage read: `ok` carries the data the query produced,
`err` is a storage failure (non-`PGRST116` error from the Supabase client). -/
inductive ReadResult (α : Type) where
  | ok (a : α)
  | err
deriving DecidableEq

/-- Row of `user_policies` (columns used by the decision engine). -/
structure Policy where
  auto_approve_limit : ℚ
  daily_spending_limit : ℚ
  weekly_spending_limit : ℚ
  low_balance_alert_threshold : ℚ
deriving DecidableEq

/-- Column defaults of `user_policies` in the migration SQL:
auto-approve 5.00, daily 100.00, weekly 500.00, low-balance threshold 10.00. -/
def defaultPolicy : Policy := ⟨5, 100, 500, 10⟩

/-- Row of `trusted_contacts`: `auto_approve_limit` is the optional
per-contact override (`DECIMAL ... DEFAULT NULL` in the schema). -/
structure TrustEntry where
  userId : ℕ
  contactId : ℕ
  auto_approve_limit : Option ℚ
deriving DecidableEq

/-- Row of `daily_spending` for one user: `UNIQUE(user_id, date)`. -/
structure DailySpendingRow where
  date : ℤ
  total_spent : ℚ
  transaction_count : ℕ
deriving DecidableEq

/-- `getUserPolicy`: a `PGRST116` miss (`.ok none`) inserts and returns the
default policy row; any other error is rethrown by the `catch` block.
(The error branch of the default-row insert itself is not modelled; no claim
depends on it.) -/
def getUserPolicy (r : ReadResult (Option Policy)) : Except Unit Policy :=
  match r with
  | .ok (some p) => .ok p
  | .ok none => .ok defaultPolicy
  | .err => .error ()

/-- `isTrustedContact`: a `PGRST116` miss returns `null`; any other error is
caught, logged and ALSO returns `null` (the storage error is swallowed). -/
def isTrustedContact (r : ReadResult (Option TrustEntry)) : Option TrustEntry :=
  match r with
  | .ok t => t
  | .err => none

/-- `getTodaySpending`: queries `daily_spending` for `(user, today)` with
`.single()`. No row (`PGRST116`) returns 0; a storage error is caught and
returns 0; a row returns `parseFloat(data.total_spent || 0)`. -/
def getTodaySpending (today : ℤ) (r : ReadResult (List DailySpendingRow)) : ℚ :=
  match r with
  | .err => 0
  | .ok rows =>
    match rows.filter (fun x => x.date == today) with
    | [x] => x.total_spent
    | _ => 0

/-- Start-of-week computation of `getWeekSpending`:
`diff = date - dayOfWeek + (dayOfWeek === 0 ? -6 : 1)`, i.e. the preceding
(or current) Monday. `(today + 4) % 7` is `Date.getDay()` of day `today`. -/
def weekStart (today : ℤ) : ℤ :=
  today - (if (today + 4) % 7 = 0 then 6 else (today + 4) % 7 - 1)

/-- `getWeekSpending`: sums `total_spent` over the user's `daily_spending`
rows with `date >= weekStart` (no upper bound in the query); a storage error
is caught and returns 0. -/
def getWeekSpending (today : ℤ) (r : ReadResult (List DailySpendingRow)) : ℚ :=
  match r with
  | .err => 0
  | .ok rows =>
    ((rows.filter (fun x => weekStart today ≤ x.date)).map
      (fun x => x.total_spent)).sum

/-- Machine-readable versions of the `reason` strings produced by
`checkAutoApproval`. -/
inductive Reason where
  | dailyLimitExceeded
  | weeklyLimitExceeded
  | notTrusted
  | withinTrustedLimit
  | exceedsAutoApproveLimit
  | couldNotVerify
deriving DecidableEq

/-- Value of the `budgetExceeded` field (`'daily'` / `'weekly'`); the spec
classifies a decision with this field set as `Blocked`. -/
inductive BudgetWindow where
  | daily
  | weekly
deriving DecidableEq

/-- The `budgetStatus` object embedded in every non-fail-closed decision,
computed from pre-transaction spend. -/
structure BudgetStatus where
  todaySpent : ℚ
  weekSpent : ℚ
  dailyLimit : ℚ
  weeklyLimit : ℚ
  remainingToday : ℚ
  remainingWeek : ℚ
deriving DecidableEq

/-- Return value of `checkAutoApproval`. `budgetStatus` is `none` only on the
fail-closed path (whose object literal has no `budgetStatus` field);
`budgetExceeded` is `some _` exactly when a budget rule blocked the payment. -/
structure Decision where
  canAutoApprove : Bool
  requiresConfirmation : Bool
  reason : Reason
  budgetStatus : Option BudgetStatus
  budgetExceeded : Option BudgetWindow
deriving DecidableEq

/-- The object returned from the `catch` block of `checkAutoApproval`:
reason "Could not verify policies. Please confirm manually." -/
def failClosedDecision : Decision := ⟨false, true, .couldNotVerify, none, none⟩

/-- The `budgetStatus` literal built at the top of `checkAutoApproval`. -/
def mkBudgetStatus (policy : Policy) (todaySpent weekSpent : ℚ) : BudgetStatus :=
  ⟨todaySpent, weekSpent, policy.daily_spending_limit, policy.weekly_spending_limit,
   policy.daily_spending_limit - todaySpent, policy.weekly_spending_limit - weekSpent⟩

/-- The JS expression
`trustedContact.auto_approve_limit || policy.auto_approve_limit` of check 4:
an override of `null` — or the falsy number `0` — falls back to the policy's
auto-approve limit. -/
def effectiveLimit (tc : TrustEntry) (policy : Policy) : ℚ :=
  match tc.auto_approve_limit with
  | some l => if l = 0 then policy.auto_approve_limit else l
  | none => policy.auto_approve_limit

/-- Decision logic of `checkAutoApproval` (lines 177-224), a pure function of
policy, trust lookup result and the two spend figures. -/
def decisionLogic (policy : Policy) (trustedContact : Option TrustEntry)
    (todaySpent weekSpent amount : ℚ) : Decision :=
  if policy.daily_spending_limit < todaySpent + amount then
    ⟨false, true, .dailyLimitExceeded, some (mkBudgetStatus policy todaySpent weekSpent),
      some .daily⟩
  else if policy.weekly_spending_limit < weekSpent + amount then
    ⟨false, true, .weeklyLimitExceeded, some (mkBudgetStatus policy todaySpent weekSpent),
      some .weekly⟩
  else
    match trustedContact with
    | none =>
      ⟨false, true, .notTrusted, some (mkBudgetStatus policy todaySpent weekSpent), none⟩
    | some tc =>
      if amount ≤ effectiveLimit tc policy then
        ⟨true, false, .withinTrustedLimit,
          some (mkBudgetStatus policy todaySpent weekSpent), none⟩
      else
        ⟨false, true, .exceedsAutoApproveLimit,
          some (mkBudgetStatus policy todaySpent weekSpent), none⟩

/-- `checkAutoApproval(userId, contactId, amount)`: reads the policy (a throw
here reaches the outer `catch`, which fails closed), the trust entry, and the
two spend figures, then applies the decision logic. -/
def checkAutoApproval (today : ℤ) (policyRead : ReadResult (Option Policy))
    (trustRead : ReadResult (Option TrustEntry))
    (todayRead weekRead : ReadResult (List DailySpendingRow))
    (amount : ℚ) : Decision :=
  match getUserPolicy policyRead with
  | .error _ => failClosedDecision
  | .ok policy =>
    decisionLogic policy (isTrustedContact trustRead)
      (getTodaySpending today todayRead) (getWeekSpending today weekRead) amount

/-- Error surfaced by a ledger write, named after the spec's taxonomy.
`updateDailySpending` as implemented never surfaces either value. -/
inductive LedgerError where
  | invalidAmount
  | storageUnavailable
deriving DecidableEq

/-- Read phase of `updateDailySpending`: the `SELECT ... single()` snapshot of
the `(user, today)` row. -/
def dsRead (s : Option DailySpendingRow) : Option DailySpendingRow := s

/-- Write phase of `updateDailySpending`, applied to the current row state
`s` using the earlier snapshot. A `some` snapshot issues
`UPDATE ... total_spent = snapshot.total_spent + amount` against the row id;
a `none` snapshot issues an `INSERT`, which on an existing row violates
`UNIQUE(user_id, date)` — the returned error object is never checked, so the
state is left unchanged. -/
def dsWrite (today : ℤ) (snapshot : Option DailySpendingRow) (amount : ℚ)
    (s : Option DailySpendingRow) : Option DailySpendingRow :=
  match snapshot with
  | some ex => some ⟨ex.date, ex.total_spent + amount, ex.transaction_count + 1⟩
  | none =>
    match s with
    | none => some ⟨today, amount, 1⟩
    | some cur => some cur

/-- `updateDailySpending(userId, amount)`: the sequential read-then-write of
the source. `readFails` models a storage error on the snapshot read (the
destructured `data` is then `null` and the error object is ignored, so the
code proceeds to the insert branch); `writeFails` a storage error on the
write (also unchecked). The whole body sits in a `try/catch` whose `catch`
only logs, so the error component of the result is always `none`: the amount
is never validated and no failure reaches the caller. -/
def updateDailySpending (today : ℤ) (readFails writeFails : Bool) (amount : ℚ)
    (s : Option DailySpendingRow) : Option DailySpendingRow × Option LedgerError :=
  let existing := if readFails then none else dsRead s
  if writeFails then (s, none)
  else (dsWrite today existing amount s, none)

/-- One failure-free sequential `updateDailySpending` call, state component. -/
def updateDailySpendingSeq (today : ℤ) (amount : ℚ) (s : Option DailySpendingRow) :
    Option DailySpendingRow :=
  (updateDailySpending today false false amount s).1

/-- Interleaved execution of three `updateDailySpending(u, 1.00)` calls on the
same day from an empty ledger: call 1 runs alone (read then write); calls 2
and 3 then both take their read snapshot before either writes.  Every step is
a read or write phase of the source's read-then-write sequence. -/
def lostUpdateRun : Option DailySpendingRow :=
  let s0 : Option DailySpendingRow := none
  let snap1 := dsRead s0
  let s1 := dsWrite 0 snap1 1 s0
  let snap2 := dsRead s1
  let snap3 := dsRead s1
  let s2 := dsWrite 0 snap2 1 s1
  let s3 := dsWrite 0 snap3 1 s2
  s3

/-- Error raised by `addTrustedContact` when the `INSERT` hits the
`UNIQUE(user_id, contact_id)` constraint (the function rethrows it). -/
inductive DBError where
  | uniqueViolation
deriving DecidableEq

/-- `addTrustedContact(userId, contactId, autoApproveLimit = null)`: a plain
`INSERT` into `trusted_contacts`; if a row for the pair already exists the
unique constraint fires and the error is rethrown to the caller. -/
def addTrustedContact (uid cid : ℕ) (limit : Option ℚ) (reg : List TrustEntry) :
    Except DBError (List TrustEntry) :=
  if reg.any (fun e => e.userId == uid && e.contactId == cid) then
    .error .uniqueViolation
  else
    .ok (⟨uid, cid, limit⟩ :: reg)

/-- Number of `trusted_contacts` rows for one `(userId, contactId)` pair. -/
def trustCount (uid cid : ℕ) (reg : List TrustEntry) : ℕ :=
  (reg.filter (fun e => e.userId == uid && e.contactId == cid)).length

/-- Values of the `alert_type` column used by the source. -/
inductive AlertType where
  | low_balance
  | deposit_received
deriving DecidableEq

/-- Row of `alerts` (fields the low-balance dedup logic reads, plus the
`metadata` payload `createAlert` stores for a low-balance alert). -/
structure Alert where
  alertType : AlertType
  createdDay : ℤ
  balance : ℚ
  threshold : ℚ
deriving DecidableEq

/-- The dedup query of `checkLowBalanceAlert`: `alerts` rows of this user with
`alert_type = 'low_balance'` and `created_at >= today` (a timestamp born on
day `d` satisfies the bound iff `today ≤ d`). -/
def lowBalanceAlertsToday (day : ℤ) (alerts : List Alert) : List Alert :=
  alerts.filter (fun a => a.alertType == .low_balance && day ≤ a.createdDay)

/-- `checkLowBalanceAlert(userId, currentBalance)`: reads the policy (an error
there is caught and returns `null` without writing); if
`balance <= low_balance_alert_threshold`, looks for an existing low-balance
alert of the day with `.single()` — which yields a row only when EXACTLY one
matches (zero rows is a `PGRST116` miss, two or more is an error; either way
the ignored `data` is `null`) — and creates a new alert only when none was
found.  Returns the new alert, or `none`. -/
def checkLowBalanceAlert (policyRead : ReadResult (Option Policy)) (balance : ℚ)
    (day : ℤ) (alerts : List Alert) : List Alert × Option Alert :=
  match getUserPolicy policyRead with
  | .error _ => (alerts, none)
  | .ok policy =>
    if balance ≤ policy.low_balance_alert_threshold then
      let found := lowBalanceAlertsToday day alerts
      let existingAlert : Option Alert :=
        if found.length == 1 then found.head? else none
      match existingAlert with
      | some _ => (alerts, none)
      | none =>
        let a : Alert := ⟨.low_balance, day, balance, policy.low_balance_alert_threshold⟩
        (a :: alerts, some a)
    else (alerts, none)

/-- State of the alert table after `n` consecutive `checkLowBalanceAlert`
calls with the same balance on the same day. -/
def iterateLowBalanceCheck (policyRead : ReadResult (Option Policy)) (balance : ℚ)
    (day : ℤ) : ℕ → List Alert → List Alert
  | 0, alerts => alerts
  | n + 1, alerts =>
    iterateLowBalanceCheck policyRead balance day n
      (checkLowBalanceAlert policyRead balance day alerts).1

/-- JavaScript number as produced by the budget-percentage computation:
a finite rational, `Infinity`, `-Infinity`, or `NaN`. -/
inductive JSVal where
  | fin (q : ℚ)
  | inf
  | negInf
  | nan
deriving DecidableEq

/-- `Math.round((spent / limit) * 100)` under IEEE-754 semantics: with
`limit = 0` the division yields `NaN` (for `spent = 0`) or `±Infinity`, which
`Math.round` passes through; otherwise `Math.round(x)` is `⌊x + 1/2⌋`
(ties round toward positive infinity). -/
def percentUsed (spent limit : ℚ) : JSVal :=
  if limit = 0 then
    if spent = 0 then .nan
    else if 0 < spent then .inf
    else .negInf
  else .fin ((⌊spent / limit * 100 + 1 / 2⌋ : ℤ) : ℚ)

/-- One `daily`/`weekly` entry of the `budget` object in `getSpendingSummary`. -/
structure BudgetLine where
  limit : ℚ
  spent : ℚ
  remaining : ℚ
  percentUsedField : JSVal
deriving DecidableEq

/-- `{ limit, spent, remaining: Math.max(0, limit - spent), percentUsed }`. -/
def budgetLine (limit spent : ℚ) : BudgetLine :=
  ⟨limit, spent, max 0 (limit - spent), percentUsed spent limit⟩

/-- The `budget` object of `getSpendingSummary`: daily and weekly lines built
from the policy limits and the current spend figures. -/
def getSpendingSummaryBudget (policy : Policy) (todaySpent weekSpent : ℚ) :
    BudgetLine × BudgetLine :=
  (budgetLine policy.daily_spending_limit todaySpent,
   budgetLine policy.weekly_spending_limit weekSpent)

/-- The spec's effective limit for a trusted counterparty:
`TrustEntry.overrideLimit ?? PolicyConfig.autoApproveLimit` — the override
whenever it is present (including an override of 0). -/
def effectiveLimitSpec (tc : TrustEntry) (policy : Policy) : ℚ :=
  tc.auto_approve_limit.getD policy.auto_approve_limit

/-- Helper: the decision logic never produces the fail-closed reason. -/
theorem decisionLogic_reason_ne_couldNotVerify (policy : Policy)
    (tc : Option TrustEntry) (t w a : ℚ) :
    (decisionLogic policy tc t w a).reason ≠ .couldNotVerify := by
  unfold decisionLogic
  split
  · simp
  · split
    · simp
    · split
      · simp
      · split <;> simp

/-- Helper: with no trust entry the decision logic never auto-approves and
always requires confirmation. -/
theorem decisionLogic_none_not_auto (policy : Policy) (t w a : ℚ) :
    (decisionLogic policy none t w a).canAutoApprove = false ∧
    (decisionLogic policy none t w a).requiresConfirmation = true := by
  unfold decisionLogic
  split
  · exact ⟨rfl, rfl⟩
  · split
    · exact ⟨rfl, rfl⟩
    · exact ⟨rfl, rfl⟩

/-- Claim C1: whenever `todaySpend + amount` exceeds the daily spending limit,
the decision logic returns Blocked (`budgetExceeded = 'daily'`, no
auto-approval, confirmation flag set) with reason daily-limit-exceeded and a
budget status carrying current spend, limit and remaining for both windows —
for every trust state, so rule 1 dominates rules 3-5. -/
theorem checkAutoApproval_daily_limit_dominates (policy : Policy)
    (trust : Option TrustEntry) (todaySpent weekSpent amount : ℚ)
    (h : policy.daily_spending_limit < todaySpent + amount) :
    decisionLogic policy trust todaySpent weekSpent amount =
      ⟨false, true, .dailyLimitExceeded,
        some ⟨todaySpent, weekSpent, policy.daily_spending_limit,
          policy.weekly_spending_limit, policy.daily_spending_limit - todaySpent,
          policy.weekly_spending_limit - weekSpent⟩,
        some .daily⟩ := by
  unfold decisionLogic mkBudgetStatus
  rw [if_pos h]

/-- Witness for C1 (the spec's Scenario B): trusted contact with override 20,
daily spend 90, daily limit 100, amount 15 → Blocked, even though 15 ≤ 20. -/
theorem checkAutoApproval_daily_limit_dominates_witness :
    defaultPolicy.daily_spending_limit < 90 + 15 ∧
    decisionLogic defaultPolicy (some ⟨1, 2, some 20⟩) 90 90 15 =
      ⟨false, true, .dailyLimitExceeded, some ⟨90, 90, 100, 500, 10, 410⟩,
        some .daily⟩ := by
  refine ⟨by norm_num [defaultPolicy], ?_⟩
  rw [checkAutoApproval_daily_limit_dominates defaultPolicy (some ⟨1, 2, some 20⟩)
    90 90 15 (by norm_num [defaultPolicy])]
  norm_num [defaultPolicy]

/-- Counterexample to claim C2: when the TRUST read fails with a storage error
(budget reads fine, amount within budget), `checkAutoApproval` does not return
the fail-closed decision — the swallowed error makes the contact look
untrusted, so the reason is not-trusted rather than
"could not verify policies, confirm manually". -/
theorem checkAutoApproval_trust_error_cex :
    checkAutoApproval 0 (.ok (some defaultPolicy)) .err (.ok []) (.ok []) 3 =
      ⟨false, true, .notTrusted, some ⟨0, 0, 100, 500, 100, 500⟩, none⟩ ∧
    (⟨false, true, .notTrusted, some ⟨0, 0, 100, 500, 100, 500⟩, none⟩ : Decision)
      ≠ failClosedDecision := by
  constructor
  · norm_num [checkAutoApproval, getUserPolicy, isTrustedContact, getTodaySpending,
      getWeekSpending, decisionLogic, mkBudgetStatus, defaultPolicy]
  · simp [failClosedDecision]

/-- Claim C2 as amended: a POLICY-read failure fails closed with the
could-not-verify decision; a TRUST-read failure is swallowed, so the result
is exactly the decision for an untrusted counterparty — which is always
Blocked (daily or weekly, reason matching) or RequiresConfirmation with
reason not-trusted, never the could-not-verify reason and never an
auto-approval. -/
theorem checkAutoApproval_fail_closed_amended :
    (∀ (today : ℤ) (tr : ReadResult (Option TrustEntry))
      (todR wkR : ReadResult (List DailySpendingRow)) (a : ℚ),
      checkAutoApproval today .err tr todR wkR a = failClosedDecision) ∧
    (∀ (today : ℤ) (p : Option Policy)
      (todR wkR : ReadResult (List DailySpendingRow)) (a : ℚ),
      checkAutoApproval today (.ok p) .err todR wkR a =
        decisionLogic (p.getD defaultPolicy) none
          (getTodaySpending today todR) (getWeekSpending today wkR) a ∧
      (checkAutoApproval today (.ok p) .err todR wkR a).canAutoApprove = false ∧
      (checkAutoApproval today (.ok p) .err todR wkR a).requiresConfirmation = true ∧
      (checkAutoApproval today (.ok p) .err todR wkR a).reason ≠ .couldNotVerify) ∧
    (∀ (policy : Policy) (t w a : ℚ),
      ((decisionLogic policy none t w a).budgetExceeded = some .daily ∧
        (decisionLogic policy none t w a).reason = .dailyLimitExceeded) ∨
      ((decisionLogic policy none t w a).budgetExceeded = some .weekly ∧
        (decisionLogic policy none t w a).reason = .weeklyLimitExceeded) ∨
      ((decisionLogic policy none t w a).budgetExceeded = none ∧
        (decisionLogic policy none t w a).reason = .notTrusted)) := by
  refine ⟨?_, ?_, ?_⟩
  · intro today tr todR wkR a
    rfl
  · intro today p todR wkR a
    cases p <;>
      exact ⟨rfl, (decisionLogic_none_not_auto _ _ _ _).1,
        (decisionLogic_none_not_auto _ _ _ _).2,
        decisionLogic_reason_ne_couldNotVerify _ none _ _ _⟩
  · intro policy t w a
    unfold decisionLogic
    split
    · exact Or.inl ⟨rfl, rfl⟩
    · split
      · exact Or.inr (Or.inl ⟨rfl, rfl⟩)
      · exact Or.inr (Or.inr ⟨rfl, rfl⟩)

/-- Counterexample to claim C5: a present override limit of 0 is falsy in JS,
so `auto_approve_limit || policy.auto_approve_limit` ignores it.  With the
spec's effective limit 0 and amount 3 > 0 the claim demands
RequiresConfirmation (exceeds-auto-approve-limit), but the code auto-approves
against the policy default limit 5. -/
theorem effectiveLimit_zero_override_cex :
    effectiveLimitSpec ⟨1, 2, some 0⟩ defaultPolicy = 0 ∧
    (0 : ℚ) < 3 ∧
    decisionLogic defaultPolicy (some ⟨1, 2, some 0⟩) 0 0 3 =
      ⟨true, false, .withinTrustedLimit, some ⟨0, 0, 100, 500, 100, 500⟩, none⟩ := by
  refine ⟨by simp [effectiveLimitSpec, defaultPolicy], by norm_num, ?_⟩
  norm_num [decisionLogic, effectiveLimit, mkBudgetStatus, defaultPolicy]

/-- Claim C5 as amended: when neither budget limit would be exceeded, an
absent trust entry yields RequiresConfirmation (not-trusted); a present one
yields AutoApproved when `amount ≤ effectiveLimit` and RequiresConfirmation
(exceeds-auto-approve-limit) when `amount > effectiveLimit`, where
`effectiveLimit` is the override when present AND NONZERO, else the policy's
auto-approve limit. -/
theorem decisionLogic_trust_rules_amended (policy : Policy)
    (trust : Option TrustEntry) (todaySpent weekSpent amount : ℚ)
    (h1 : todaySpent + amount ≤ policy.daily_spending_limit)
    (h2 : weekSpent + amount ≤ policy.weekly_spending_limit) :
    (trust = none →
      decisionLogic policy trust todaySpent weekSpent amount =
        ⟨false, true, .notTrusted, some (mkBudgetStatus policy todaySpent weekSpent),
          none⟩) ∧
    (∀ tc, trust = some tc →
      (amount ≤ effectiveLimit tc policy →
        decisionLogic policy trust todaySpent weekSpent amount =
          ⟨true, false, .withinTrustedLimit,
            some (mkBudgetStatus policy todaySpent weekSpent), none⟩) ∧
      (effectiveLimit tc policy < amount →
        decisionLogic policy trust todaySpent weekSpent amount =
          ⟨false, true, .exceedsAutoApproveLimit,
            some (mkBudgetStatus policy todaySpent weekSpent), none⟩)) := by
  have hn1 : ¬ policy.daily_spending_limit < todaySpent + amount := not_lt.mpr h1
  have hn2 : ¬ policy.weekly_spending_limit < weekSpent + amount := not_lt.mpr h2
  constructor
  · intro htr
    subst htr
    unfold decisionLogic
    rw [if_neg hn1, if_neg hn2]
  · intro tc htr
    subst htr
    constructor
    · intro hle
      unfold decisionLogic
      rw [if_neg hn1, if_neg hn2]
      simp only [if_pos hle]
    · intro hgt
      unfold decisionLogic
      rw [if_neg hn1, if_neg hn2]
      simp only [if_neg (not_le.mpr hgt)]

/-- Witness for C5 as amended (the spec's Scenario C): trusted contact with no
override, default auto-approve limit 5, amount 5, no spend → AutoApproved. -/
theorem decisionLogic_trust_rules_amended_witness :
    (0 : ℚ) + 5 ≤ defaultPolicy.daily_spending_limit ∧
    (0 : ℚ) + 5 ≤ defaultPolicy.weekly_spending_limit ∧
    decisionLogic defaultPolicy (some ⟨1, 2, none⟩) 0 0 5 =
      ⟨true, false, .withinTrustedLimit, some ⟨0, 0, 100, 500, 100, 500⟩, none⟩ := by
  refine ⟨by norm_num [defaultPolicy], by norm_num [defaultPolicy], ?_⟩
  rw [((decisionLogic_trust_rules_amended defaultPolicy (some ⟨1, 2, none⟩) 0 0 5
    (by norm_num [defaultPolicy]) (by norm_num [defaultPolicy])).2 ⟨1, 2, none⟩ rfl).1
    (by norm_num [effectiveLimit, defaultPolicy])]
  norm_num [mkBudgetStatus, defaultPolicy]

/-- Claim C3 (code bug): the read-then-write of `updateDailySpending` loses
concurrent updates.  Three recordSpend(u, 1.00) calls on one day — the first
alone, then two whose read snapshots both precede either write — leave
`totalSpent = 2` and `transactionCount = 2`, although the same three calls run
sequentially give 3 and 3 (what the claim requires for every schedule). -/
theorem updateDailySpending_lost_update :
    lostUpdateRun = some ⟨0, 2, 2⟩ ∧
    updateDailySpendingSeq 0 1 (updateDailySpendingSeq 0 1 (updateDailySpendingSeq 0 1 none))
      = some ⟨0, 3, 3⟩ := by
  constructor <;>
    norm_num [lostUpdateRun, updateDailySpendingSeq, updateDailySpending, dsRead, dsWrite]

/-- Counterexample to claim C4: `updateDailySpending` accepts the negative
amount −5 (the record's total drops from 10 to 5, no `InvalidAmount`), and a
storage failure during the write is swallowed — the call returns normally
with the ledger unchanged (a silent no-op, no `StorageUnavailable`). -/
theorem updateDailySpending_swallows_cex :
    updateDailySpending 0 false false (-5) (some ⟨0, 10, 1⟩) = (some ⟨0, 5, 2⟩, none) ∧
    updateDailySpending 0 false true 5 (some ⟨0, 10, 1⟩) = (some ⟨0, 10, 1⟩, none) := by
  constructor <;> norm_num [updateDailySpending, dsRead, dsWrite]

/-- Claim C4 as amended: `updateDailySpending` performs no amount validation —
any amount, negative included, is added to the record — and never surfaces an
error: on a write failure it completes silently as a no-op, and in every case
the error component of the result is `none`. -/
theorem updateDailySpending_no_validation_amended :
    (∀ (today : ℤ) (rf : Bool) (amount : ℚ) (s : Option DailySpendingRow),
      updateDailySpending today rf true amount s = (s, none)) ∧
    (∀ (today : ℤ) (rf wf : Bool) (amount : ℚ) (s : Option DailySpendingRow),
      (updateDailySpending today rf wf amount s).2 = none) ∧
    (∀ (today : ℤ) (amount : ℚ) (r : DailySpendingRow),
      updateDailySpending today false false amount (some r) =
        (some ⟨r.date, r.total_spent + amount, r.transaction_count + 1⟩, none)) := by
  refine ⟨?_, ?_, ?_⟩
  · intro today rf amount s
    simp [updateDailySpending]
  · intro today rf wf amount s
    cases wf <;> simp [updateDailySpending]
  · intro today amount r
    simp [updateDailySpending, dsRead, dsWrite]

/-- Counterexample to claim C6: adding an already-trusted pair does not
upsert — the `INSERT` hits `UNIQUE(user_id, contact_id)` and the error is
rethrown to the caller. -/
theorem addTrustedContact_insert_errors_cex :
    addTrustedContact 1 2 (some 20) [⟨1, 2, some 20⟩] = .error .uniqueViolation := by
  rfl

/-- Claim C6 as amended: on a registry without the pair, the first add
succeeds and leaves exactly one TrustEntry for the pair; a second add with the
same override limit fails with the unique-constraint error (leaving the
registry unchanged), so the pair still has exactly one entry. -/
theorem addTrustedContact_second_add_amended (uid cid : ℕ) (limit : Option ℚ)
    (reg : List TrustEntry) (h : trustCount uid cid reg = 0) :
    ∃ reg2, addTrustedContact uid cid limit reg = .ok reg2 ∧
      trustCount uid cid reg2 = 1 ∧
      addTrustedContact uid cid limit reg2 = .error .uniqueViolation := by
  have hfil : reg.filter (fun e => e.userId == uid && e.contactId == cid) = [] :=
    List.length_eq_zero.mp h
  have hnone : ∀ e ∈ reg, ¬(e.userId == uid && e.contactId == cid) = true := by
    intro e he
    exact List.filter_eq_nil_iff.mp hfil e he
  have hany : reg.any (fun e => e.userId == uid && e.contactId == cid) = false := by
    rw [List.any_eq_false]
    exact hnone
  refine ⟨⟨uid, cid, limit⟩ :: reg, ?_, ?_, ?_⟩
  · unfold addTrustedContact
    rw [if_neg (by simp [hany])]
  · unfold trustCount
    rw [List.filter_cons_of_pos (by simp)]
    simp [hfil]
  · unfold addTrustedContact
    rw [if_pos (by simp)]

/-- Witness for C6 as amended: adding contact 2 as trusted (limit 20) for
user 1 on an empty registry, then adding it again. -/
theorem addTrustedContact_second_add_amended_witness :
    trustCount 1 2 ([] : List TrustEntry) = 0 ∧
    ∃ reg2, addTrustedContact 1 2 (some 20) [] = .ok reg2 ∧
      trustCount 1 2 reg2 = 1 ∧
      addTrustedContact 1 2 (some 20) reg2 = .error .uniqueViolation :=
  ⟨rfl, addTrustedContact_second_add_amended 1 2 (some 20) [] rfl⟩

/-- Helper: with no matching alert yet, a low-balance check below threshold
creates and returns the new alert. -/
theorem checkLowBalanceAlert_creates (policy : Policy) (balance : ℚ) (day : ℤ)
    (alerts : List Alert)
    (hbal : balance ≤ policy.low_balance_alert_threshold)
    (h0 : lowBalanceAlertsToday day alerts = []) :
    checkLowBalanceAlert (.ok (some policy)) balance day alerts =
      (⟨.low_balance, day, balance, policy.low_balance_alert_threshold⟩ :: alerts,
       some ⟨.low_balance, day, balance, policy.low_balance_alert_threshold⟩) := by
  simp [checkLowBalanceAlert, getUserPolicy, hbal, h0]

/-- Helper: with exactly one matching alert, a low-balance check is a no-op
returning `none`. -/
theorem checkLowBalanceAlert_noop (policy : Policy) (balance : ℚ) (day : ℤ)
    (alerts : List Alert)
    (hbal : balance ≤ policy.low_balance_alert_threshold)
    (h1 : (lowBalanceAlertsToday day alerts).length = 1) :
    checkLowBalanceAlert (.ok (some policy)) balance day alerts = (alerts, none) := by
  obtain ⟨a, ha⟩ := List.length_eq_one.mp h1
  simp [checkLowBalanceAlert, getUserPolicy, hbal, ha]

/-- Helper: the freshly created alert matches the dedup query of its day. -/
theorem lowBalanceAlertsToday_cons_new (day : ℤ) (b t : ℚ) (alerts : List Alert) :
    lowBalanceAlertsToday day (⟨.low_balance, day, b, t⟩ :: alerts) =
      ⟨.low_balance, day, b, t⟩ :: lowBalanceAlertsToday day alerts := by
  unfold lowBalanceAlertsToday
  rw [List.filter_cons_of_pos (by simp)]

/-- Helper: once exactly one alert of the day matches, any number of further
checks leaves the table unchanged. -/
theorem iterateLowBalanceCheck_noop (policy : Policy) (balance : ℚ) (day : ℤ)
    (alerts : List Alert) (n : ℕ)
    (hbal : balance ≤ policy.low_balance_alert_threshold)
    (h1 : (lowBalanceAlertsToday day alerts).length = 1) :
    iterateLowBalanceCheck (.ok (some policy)) balance day n alerts = alerts := by
  induction n with
  | zero => rfl
  | succ n ih =>
    unfold iterateLowBalanceCheck
    rw [checkLowBalanceAlert_noop policy balance day alerts hbal h1]
    exact ih

/-- Claim C7: calling `checkLowBalanceAlert` repeatedly on the same day with a
balance at or below the threshold, starting from a day with no low-balance
alert, creates exactly one alert row: the first call creates and returns it,
and after any `n ≥ 1` calls the day still has exactly one matching alert and
the next call returns `none`. -/
theorem checkLowBalanceAlert_dedup (policy : Policy) (balance : ℚ) (day : ℤ)
    (alerts : List Alert)
    (hbal : balance ≤ policy.low_balance_alert_threshold)
    (h0 : lowBalanceAlertsToday day alerts = []) :
    (checkLowBalanceAlert (.ok (some policy)) balance day alerts).2 =
      some ⟨.low_balance, day, balance, policy.low_balance_alert_threshold⟩ ∧
    (∀ n, 1 ≤ n →
      (lowBalanceAlertsToday day
        (iterateLowBalanceCheck (.ok (some policy)) balance day n alerts)).length = 1 ∧
      (checkLowBalanceAlert (.ok (some policy)) balance day
        (iterateLowBalanceCheck (.ok (some policy)) balance day n alerts)).2 = none) := by
  have hcreate := checkLowBalanceAlert_creates policy balance day alerts hbal h0
  have hlen1 : (lowBalanceAlertsToday day
      (⟨.low_balance, day, balance, policy.low_balance_alert_threshold⟩ :: alerts)).length = 1 := by
    rw [lowBalanceAlertsToday_cons_new, h0]
    rfl
  have hstate : ∀ n, 1 ≤ n →
      iterateLowBalanceCheck (.ok (some policy)) balance day n alerts =
        ⟨.low_balance, day, balance, policy.low_balance_alert_threshold⟩ :: alerts := by
    intro n hn
    obtain ⟨m, rfl⟩ := Nat.exists_eq_add_of_le hn
    rw [Nat.add_comm]
    unfold iterateLowBalanceCheck
    rw [hcreate]
    exact iterateLowBalanceCheck_noop policy balance day _ m hbal hlen1
  constructor
  · rw [hcreate]
  · intro n hn
    rw [hstate n hn]
    exact ⟨hlen1, by rw [checkLowBalanceAlert_noop policy balance day _ hbal hlen1]⟩

/-- Witness for C7: threshold 10, balance 5, empty alert table, five calls. -/
theorem checkLowBalanceAlert_dedup_witness :
    (5 : ℚ) ≤ defaultPolicy.low_balance_alert_threshold ∧
    (lowBalanceAlertsToday 0
      (iterateLowBalanceCheck (.ok (some defaultPolicy)) 5 0 5 [])).length = 1 := by
  have hbal : (5 : ℚ) ≤ defaultPolicy.low_balance_alert_threshold := by
    norm_num [defaultPolicy]
  exact ⟨hbal,
    ((checkLowBalanceAlert_dedup defaultPolicy 5 0 [] hbal rfl).2 5 (by norm_num)).1⟩

/-- Sum of `total_spent` over the records the specification's week window
`[weekStart, today]` selects (the spec's description of `weekSpend`). -/
def weekSpendSpec (today : ℤ) (rows : List DailySpendingRow) : ℚ :=
  ((rows.filter (fun x => weekStart today ≤ x.date ∧ x.date ≤ today)).map
    (fun x => x.total_spent)).sum

/-- Helper: `weekStart` is the Monday of the current week: within the last
six days and with `Date.getDay() = 1`. -/
theorem weekStart_isMonday (today : ℤ) :
    (weekStart today + 4) % 7 = 1 ∧ weekStart today ≤ today ∧
      today < weekStart today + 7 := by
  unfold weekStart
  split <;> omega

/-- Claim C8: when every stored record's date is at most today (records are
only ever created for the current day), `getWeekSpending` equals the sum of
`totalSpent` over the records dated in `[weekStart today, today]`, the lower
bound being the Monday of the current week; an empty record set gives 0. -/
theorem getWeekSpending_sum_week (today : ℤ) (rows : List DailySpendingRow)
    (h : ∀ x ∈ rows, x.date ≤ today) :
    getWeekSpending today (.ok rows) = weekSpendSpec today rows ∧
    (weekStart today + 4) % 7 = 1 ∧
    weekStart today ≤ today ∧ today < weekStart today + 7 ∧
    getWeekSpending today (.ok ([] : List DailySpendingRow)) = 0 := by
  obtain ⟨hmon, hle, hwin⟩ := weekStart_isMonday today
  refine ⟨?_, hmon, hle, hwin, rfl⟩
  simp only [getWeekSpending, weekSpendSpec]
  congr 1
  congr 1
  apply List.filter_congr
  intro x hx
  simp [h x hx]

/-- Concrete ledger for the C8 witness: today is day 7 (Thursday 1970-01-08),
whose week starts on day 4 (Monday 1970-01-05); the day-3 record falls in the
previous week. -/
def sampleWeekRows : List DailySpendingRow := [⟨4, 5, 1⟩, ⟨7, 2, 1⟩, ⟨3, 100, 1⟩]

/-- Witness for C8: the week sum over `sampleWeekRows` is 5 + 2 = 7. -/
theorem getWeekSpending_sum_week_witness :
    (∀ x ∈ sampleWeekRows, x.date ≤ 7) ∧
    getWeekSpending 7 (.ok sampleWeekRows) = weekSpendSpec 7 sampleWeekRows ∧
    getWeekSpending 7 (.ok sampleWeekRows) = 7 := by
  refine ⟨by decide, (getWeekSpending_sum_week 7 sampleWeekRows (by decide)).1, ?_⟩
  norm_num [getWeekSpending, sampleWeekRows, weekStart]

/-- Counterexample to claim C9: with a daily limit configured as 0 and 5
spent, the summary's daily `percentUsed` is IEEE `Infinity` — not a finite
percentage (in particular not 0%), and the code has no N/A branch. -/
theorem percentUsed_zero_limit_cex :
    (getSpendingSummaryBudget ⟨5, 0, 500, 10⟩ 5 0).1.percentUsedField = .inf ∧
    ∀ q : ℚ, JSVal.inf ≠ .fin q := by
  constructor
  · norm_num [getSpendingSummaryBudget, budgetLine, percentUsed]
  · intro q
    simp

/-- Claim C9 as amended: when a limit is nonzero, `percentUsed` is
`round(spent / limit * 100)` (finite, `Math.round` = floor of the value plus
one half); when a limit is configured as 0 the computation does not raise but
yields `Infinity` for positive spend and `NaN` for zero spend, with no 0%/N-A
guard. -/
theorem getSpendingSummaryBudget_percent_amended (policy : Policy)
    (todaySpent weekSpent : ℚ)
    (h1 : policy.daily_spending_limit ≠ 0)
    (h2 : policy.weekly_spending_limit ≠ 0) :
    (getSpendingSummaryBudget policy todaySpent weekSpent).1.percentUsedField =
      .fin ((⌊todaySpent / policy.daily_spending_limit * 100 + 1 / 2⌋ : ℤ) : ℚ) ∧
    (getSpendingSummaryBudget policy todaySpent weekSpent).2.percentUsedField =
      .fin ((⌊weekSpent / policy.weekly_spending_limit * 100 + 1 / 2⌋ : ℤ) : ℚ) ∧
    (∀ s : ℚ, 0 < s → percentUsed s 0 = .inf) ∧
    percentUsed 0 0 = .nan := by
  refine ⟨?_, ?_, ?_, ?_⟩
  · simp [getSpendingSummaryBudget, budgetLine, percentUsed, h1]
  · simp [getSpendingSummaryBudget, budgetLine, percentUsed, h2]
  · intro s hs
    simp [percentUsed, hs.ne', hs]
  · simp [percentUsed]

/-- Witness for C9 as amended: default limits, 30 spent today and 100 this
week → 30% and 20%. -/
theorem getSpendingSummaryBudget_percent_amended_witness :
    defaultPolicy.daily_spending_limit ≠ 0 ∧
    defaultPolicy.weekly_spending_limit ≠ 0 ∧
    (getSpendingSummaryBudget defaultPolicy 30 100).1.percentUsedField = .fin 30 ∧
    (getSpendingSummaryBudget defaultPolicy 30 100).2.percentUsedField = .fin 20 := by
  have h := getSpendingSummaryBudget_percent_amended defaultPolicy 30 100
    (by norm_num [defaultPolicy]) (by norm_num [defaultPolicy])
  refine ⟨by norm_num [defaultPolicy], by norm_num [defaultPolicy], ?_, ?_⟩
  · rw [h.1]
    norm_num [defaultPolicy]
  · rw [h.2.1]
    norm_num [defaultPolicy]

/-- Claim C10: a storage error on either spending read makes
`getTodaySpending` and `getWeekSpending` return 0 (the errors are caught
internally), so `checkAutoApproval` evaluates the rules as if nothing had
been spent, never produces the fail-closed could-not-verify decision from a
ledger failure, and can still auto-approve a trusted counterparty. -/
theorem checkAutoApproval_ledger_error_ignored :
    (∀ today : ℤ, getTodaySpending today .err = 0 ∧ getWeekSpending today .err = 0) ∧
    (∀ (today : ℤ) (q : Policy) (tr : ReadResult (Option TrustEntry)) (a : ℚ),
      checkAutoApproval today (.ok (some q)) tr .err .err a =
        decisionLogic q (isTrustedContact tr) 0 0 a) ∧
    (∀ (today : ℤ) (q : Policy) (tr : ReadResult (Option TrustEntry)) (a : ℚ),
      (checkAutoApproval today (.ok (some q)) tr .err .err a).reason ≠ .couldNotVerify) ∧
    (checkAutoApproval 0 (.ok (some defaultPolicy)) (.ok (some ⟨1, 2, none⟩))
      .err .err 3).canAutoApprove = true := by
  refine ⟨fun _ => ⟨rfl, rfl⟩, fun _ _ _ _ => rfl, ?_, ?_⟩
  · intro today q tr a
    exact decisionLogic_reason_ne_couldNotVerify q (isTrustedContact tr) 0 0 a
  · norm_num [checkAutoApproval, getUserPolicy, isTrustedContact, getTodaySpending,
      getWeekSpending, decisionLogic, effectiveLimit, mkBudgetStatus, defaultPolicy]

end PayVoice
